import Mathlib

/-!
Verification of the EmotionalTextureAnalyzer scoring core
(`emotionaltextureanalyzer.py`) against its design specification.

The Python source is shallowly embedded: Python `re` pattern matching is
modelled by a small regular-expression AST together with a backtracking
matcher that mirrors CPython's leftmost, first-alternative-first,
greedy-quantifier search (`findall` semantics with `re.IGNORECASE`);
floats are modelled by exact rationals; `datetime.now()` readings are
passed as explicit string parameters; raising `ValueError` (the spec's
`InvalidInputError`) is modelled by returning `none`.
-/

namespace ETA

/-- The apostrophe character (used inside several source patterns). -/
def apos : Char := Char.ofNat 39

/-- Python whitespace for `str.split()` and the regex class `\s`
(space, tab, newline, carriage return, vertical tab, form feed). -/
def isPySpace (c : Char) : Bool :=
  c = ' ' || c = '\t' || c = '\n' || c = '\r' || c = Char.ofNat 11 || c = Char.ofNat 12

/-- Python regex word character `\w` (ASCII range, as exercised here). -/
def isWordChar (c : Char) : Bool :=
  c.isAlpha || c.isDigit || c = '_'

/-- ASCII lowercasing, modelling `re.IGNORECASE` comparison. -/
def lowerC (c : Char) : Char :=
  if c.isUpper then Char.ofNat (c.toNat + 32) else c

/-- Regular-expression AST covering exactly the constructs used by the
source pattern registry: literal characters, character classes, the word
boundary `\b`, whitespace `\s`, concatenation, alternation `|`,
option `?` and Kleene star (from which `+` and `{2,}` are built). -/
inductive Regex where
  | ch (c : Char)
  | cls (cs : List Char)
  | wordB
  | ws
  | seq (a b : Regex)
  | alt (a b : Regex)
  | opt (a : Regex)
  | star (a : Regex)
deriving Repr

/-- `\b`: true when exactly one side of position `i` is a word character. -/
def atBoundary (t : List Char) (i : Nat) : Bool :=
  let before := decide (0 < i) && isWordChar (t.getD (i - 1) ' ')
  let after := decide (i < t.length) && isWordChar (t.getD i ' ')
  before != after

/-- Backtracking matcher: `runR t fuel r i` returns the candidate end
positions of a match of `r` starting at position `i` of `t`, in the order
CPython's engine explores them (leftmost alternative first, greedy
quantifiers longest first).  The head of the list is the match the engine
commits to.  `fuel` only bounds recursion depth; `t.length + 64` always
suffices for the registry patterns (nesting depth < 64, and each starred
atom consumes at least one character per iteration). -/
def runR (t : List Char) : Nat → Regex → Nat → List Nat
  | 0, _, _ => []
  | _ + 1, .ch c, i =>
      if h : i < t.length then
        if lowerC (t.get ⟨i, h⟩) = lowerC c then [i + 1] else []
      else []
  | _ + 1, .cls cs, i =>
      if h : i < t.length then
        if cs.any (fun c => lowerC (t.get ⟨i, h⟩) = lowerC c) then [i + 1] else []
      else []
  | _ + 1, .wordB, i => if atBoundary t i then [i] else []
  | _ + 1, .ws, i =>
      if h : i < t.length then
        if isPySpace (t.get ⟨i, h⟩) then [i + 1] else []
      else []
  | f + 1, .seq a b, i => (runR t f a i).flatMap (runR t f b)
  | f + 1, .alt a b, i => runR t f a i ++ runR t f b i
  | f + 1, .opt a, i => runR t f a i ++ [i]
  | f + 1, .star a, i =>
      ((runR t f a i).filter (fun j => decide (i < j))).flatMap
        (fun j => runR t f (.star a) j) ++ [i]

/-- Fuel bound for `runR` (see its docstring). -/
def fuelFor (t : List Char) : Nat := t.length + 64

/-- `re.findall` position scan: starting at `pos`, repeatedly take the
leftmost match (advancing one position when no match starts here), record
its span, and resume after it (advancing by one on an empty match). -/
def scanAll (t : List Char) (r : Regex) : Nat → Nat → List (Nat × Nat)
  | 0, _ => []
  | f + 1, pos =>
      if t.length < pos then []
      else
        match (runR t (fuelFor t) r pos).head? with
        | some e => (pos, e) :: scanAll t r f (if pos < e then e else pos + 1)
        | none => scanAll t r f (pos + 1)

/-- `pattern.findall(text)`: the list of matched substrings, in order.
(The registry patterns contain no capture groups, so `findall` returns
whole-match strings.) -/
def pyFindall (t : List Char) (r : Regex) : List (List Char) :=
  (scanAll t r (t.length + 1) 0).map (fun se => (t.drop se.1).take (se.2 - se.1))

/-- Concatenation of a pattern sequence. -/
def cat : List Regex → Regex
  | [] => .wordB
  | [r] => r
  | r :: rest => .seq r (cat rest)

/-- Alternation `(?:a|b|...)`, leftmost alternative tried first. -/
def grp : List Regex → Regex
  | [] => .wordB
  | [r] => r
  | r :: rest => .alt r (grp rest)

/-- A literal string, matched case-insensitively character by character. -/
def lit (s : String) : Regex := cat (s.data.map .ch)

/-- `\b ... \b` wrapping shared by every registry pattern. -/
def wb (r : Regex) : Regex := .seq .wordB (.seq r .wordB)

/-- `r+` = `r r*`. -/
def rplus (r : Regex) : Regex := .seq r (.star r)

/-- `text.split()` word extraction: maximal runs of non-whitespace. -/
def pyWordsAux : List Char → List Char → List (List Char)
  | [], acc => if acc = [] then [] else [acc.reverse]
  | c :: rest, acc =>
      if isPySpace c then
        if acc = [] then pyWordsAux rest []
        else acc.reverse :: pyWordsAux rest []
      else pyWordsAux rest (c :: acc)

/-- The whitespace-delimited tokens of a string (`text.split()`). -/
def pyWords (s : List Char) : List (List Char) := pyWordsAux s []

/-- `len(text.split())`. -/
def pyWordCount (text : String) : Nat := (pyWords text.data).length

/-- Python `round(x, 2)` modelled over exact rationals as
round-to-nearest at two decimal places (the source never evaluates it at
an exact tie, where binary-float round-half-even could differ). -/
def pyRound2 (q : ℚ) : ℚ := ((round (q * 100) : ℤ) : ℚ) / 100

end ETA

namespace ETA

/-! ## Pattern registry (EMOTIONAL_DIMENSIONS, source lines 47-172)

Each Lean pattern transcribes one source regex; the original is quoted in
the comment above it, with the apostrophe character written as (39). -/

/-- WARMTH patterns. -/
def WARMTH_patterns : List Regex := [
  -- \bwarm(?:th|ly)?\b
  wb (cat [lit "warm", .opt (grp [lit "th", lit "ly"])]),
  -- \baffection(?:ate)?(?:ly)?\b
  wb (cat [lit "affection", .opt (lit "ate"), .opt (lit "ly")]),
  -- \bcare(?:s|d|ful|fully)?\b
  wb (cat [lit "care", .opt (grp [lit "s", lit "d", lit "ful", lit "fully"])]),
  -- \btender(?:ness|ly)?\b
  wb (cat [lit "tender", .opt (grp [lit "ness", lit "ly"])]),
  -- \bcomfort(?:ing|able|ed)?\b
  wb (cat [lit "comfort", .opt (grp [lit "ing", lit "able", lit "ed"])]),
  -- \bgentle(?:ness|ly)?\b
  wb (cat [lit "gentle", .opt (grp [lit "ness", lit "ly"])]),
  -- \bkind(?:ness|ly)?\b
  wb (cat [lit "kind", .opt (grp [lit "ness", lit "ly"])]),
  -- \bsoft(?:ness|ly)?\b
  wb (cat [lit "soft", .opt (grp [lit "ness", lit "ly"])]),
  -- \bembrace[ds]?\b
  wb (cat [lit "embrace", .opt (.cls ['d', 's'])]),
  -- \bhug(?:s|ged|ging)?\b
  wb (cat [lit "hug", .opt (grp [lit "s", lit "ged", lit "ging"])]),
  -- \blove[ds]?\b
  wb (cat [lit "love", .opt (.cls ['d', 's'])]),
  -- \bcheri(?:sh|shed|shing)\b
  wb (cat [lit "cheri", grp [lit "sh", lit "shed", lit "shing"]]),
  -- \bbrother(?:hood)?\b
  wb (cat [lit "brother", .opt (lit "hood")]),
  -- \bsister(?:hood)?\b
  wb (cat [lit "sister", .opt (lit "hood")]),
  -- \bfamily\b
  wb (lit "family"),
  -- \bheart(?:felt|warming)?\b
  wb (cat [lit "heart", .opt (grp [lit "felt", lit "warming"])]),
  -- \bnurtur(?:e|ed|ing)\b
  wb (cat [lit "nurtur", grp [lit "e", lit "ed", lit "ing"]])]

/-- RESONANCE patterns. -/
def RESONANCE_patterns : List Regex := [
  -- \breson(?:ance|ate[ds]?|ating)\b
  wb (cat [lit "reson",
    grp [lit "ance", cat [lit "ate", .opt (.cls ['d', 's'])], lit "ating"]]),
  -- \bconnect(?:ion|ed|ing|s)?\b
  wb (cat [lit "connect", .opt (grp [lit "ion", lit "ed", lit "ing", lit "s"])]),
  -- \balign(?:ment|ed|ing|s)?\b
  wb (cat [lit "align", .opt (grp [lit "ment", lit "ed", lit "ing", lit "s"])]),
  -- \bsync(?:hron(?:y|ized?|izing))?\b
  wb (cat [lit "sync", .opt (cat [lit "hron",
    grp [lit "y", cat [lit "ize", .opt (lit "d")], lit "izing"]])]),
  -- \bunderstand(?:ing|s)?\b
  wb (cat [lit "understand", .opt (grp [lit "ing", lit "s"])]),
  -- \bharmony\b
  wb (lit "harmony"),
  -- \battun(?:e|ed|ing|ement)\b
  wb (cat [lit "attun", grp [lit "e", lit "ed", lit "ing", lit "ement"]]),
  -- \bvibe[ds]?\b
  wb (cat [lit "vibe", .opt (.cls ['d', 's'])]),
  -- \bwavelength\b
  wb (lit "wavelength"),
  -- \bshared\b
  wb (lit "shared"),
  -- \bmutual(?:ly)?\b
  wb (cat [lit "mutual", .opt (lit "ly")]),
  -- \bin tune\b
  wb (lit "in tune"),
  -- \bsame page\b
  wb (lit "same page"),
  -- \bget it\b
  wb (lit "get it"),
  -- \bexactly\b
  wb (lit "exactly"),
  -- \bthat(39)?s? (?:it|right)\b
  wb (cat [lit "that", .opt (.ch apos), .opt (lit "s"), lit " ",
    grp [lit "it", lit "right"]]),
  -- \byes[!]+\b
  wb (cat [lit "yes", rplus (.cls ['!'])]),
  -- \bagreed?\b
  wb (cat [lit "agree", .opt (lit "d")])]

/-- LONGING patterns. -/
def LONGING_patterns : List Regex := [
  -- \blong(?:ing|ed|s)?\b
  wb (cat [lit "long", .opt (grp [lit "ing", lit "ed", lit "s"])]),
  -- \byearn(?:ing|ed|s)?\b
  wb (cat [lit "yearn", .opt (grp [lit "ing", lit "ed", lit "s"])]),
  -- \bdesire[ds]?\b
  wb (cat [lit "desire", .opt (.cls ['d', 's'])]),
  -- \baspir(?:e|ation|ing|ed)\b
  wb (cat [lit "aspir", grp [lit "e", lit "ation", lit "ing", lit "ed"]]),
  -- \bhope(?:ful|fully|s|d|ing)?\b
  wb (cat [lit "hope", .opt (grp [lit "ful", lit "fully", lit "s", lit "d", lit "ing"])]),
  -- \bwish(?:es|ed|ing)?\b
  wb (cat [lit "wish", .opt (grp [lit "es", lit "ed", lit "ing"])]),
  -- \bdream(?:s|ed|ing)?\b
  wb (cat [lit "dream", .opt (grp [lit "s", lit "ed", lit "ing"])]),
  -- \bimagine[ds]?\b
  wb (cat [lit "imagine", .opt (.cls ['d', 's'])]),
  -- \benvision(?:ed|ing|s)?\b
  wb (cat [lit "envision", .opt (grp [lit "ed", lit "ing", lit "s"])]),
  -- \bone day\b
  wb (lit "one day"),
  -- \bsomeday\b
  wb (lit "someday"),
  -- \bfuture\b
  wb (lit "future"),
  -- \bif only\b
  wb (lit "if only"),
  -- \bi wish\b
  wb (lit "i wish"),
  -- \bwouldn(39)?t it be\b
  wb (cat [lit "wouldn", .opt (.ch apos), lit "t it be"]),
  -- \bpossib(?:le|ility)\b
  wb (cat [lit "possib", grp [lit "le", lit "ility"]])]

/-- FEAR patterns. -/
def FEAR_patterns : List Regex := [
  -- \bfear(?:ful|fully|ed|ing|s)?\b
  wb (cat [lit "fear", .opt (grp [lit "ful", lit "fully", lit "ed", lit "ing", lit "s"])]),
  -- \banxi(?:ety|ous|ously)\b
  wb (cat [lit "anxi", grp [lit "ety", lit "ous", lit "ously"]]),
  -- \buncertain(?:ty|ties)?\b
  wb (cat [lit "uncertain", .opt (grp [lit "ty", lit "ties"])]),
  -- \bvulnerab(?:le|ility)\b
  wb (cat [lit "vulnerab", grp [lit "le", lit "ility"]]),
  -- \bapprehens(?:ion|ive|ively)\b
  wb (cat [lit "apprehens", grp [lit "ion", lit "ive", lit "ively"]]),
  -- \bworr(?:y|ied|ying|ies)\b
  wb (cat [lit "worr", grp [lit "y", lit "ied", lit "ying", lit "ies"]]),
  -- \bnerv(?:ous|ously|e|es)\b
  wb (cat [lit "nerv", grp [lit "ous", lit "ously", lit "e", lit "es"]]),
  -- \bscar(?:ed?|y|ier|ing)\b
  wb (cat [lit "scar", grp [cat [lit "e", .opt (lit "d")], lit "y", lit "ier", lit "ing"]]),
  -- \bafraid\b
  wb (lit "afraid"),
  -- \bdread(?:ed|ing|ful)?\b
  wb (cat [lit "dread", .opt (grp [lit "ed", lit "ing", lit "ful"])]),
  -- \bterr(?:or|ified|ifying)\b
  wb (cat [lit "terr", grp [lit "or", lit "ified", lit "ifying"]]),
  -- \buneas(?:y|ily|iness)\b
  wb (cat [lit "uneas", grp [lit "y", lit "ily", lit "iness"]]),
  -- \bdoubt(?:s|ed|ing|ful)?\b
  wb (cat [lit "doubt", .opt (grp [lit "s", lit "ed", lit "ing", lit "ful"])]),
  -- \bwhat if\b
  wb (lit "what if"),
  -- \bworst case\b
  wb (lit "worst case")]

/-- PEACE patterns. -/
def PEACE_patterns : List Regex := [
  -- \bpeace(?:ful|fully)?\b
  wb (cat [lit "peace", .opt (grp [lit "ful", lit "fully"])]),
  -- \bcalm(?:ness|ly|ed|ing)?\b
  wb (cat [lit "calm", .opt (grp [lit "ness", lit "ly", lit "ed", lit "ing"])]),
  -- \bseren(?:e|ity)\b
  wb (cat [lit "seren", grp [lit "e", lit "ity"]]),
  -- \bcontent(?:ment|ed)?\b
  wb (cat [lit "content", .opt (grp [lit "ment", lit "ed"])]),
  -- \baccept(?:ance|ed|ing)?\b
  wb (cat [lit "accept", .opt (grp [lit "ance", lit "ed", lit "ing"])]),
  -- \bstill(?:ness)?\b
  wb (cat [lit "still", .opt (lit "ness")]),
  -- \bquiet(?:ness|ly)?\b
  wb (cat [lit "quiet", .opt (grp [lit "ness", lit "ly"])]),
  -- \brelax(?:ed|ing|ation)?\b
  wb (cat [lit "relax", .opt (grp [lit "ed", lit "ing", lit "ation"])]),
  -- \btranquil(?:ity|ly)?\b
  wb (cat [lit "tranquil", .opt (grp [lit "ity", lit "ly"])]),
  -- \bease\b
  wb (lit "ease"),
  -- \brest(?:ful|fully|ed|ing)?\b
  wb (cat [lit "rest", .opt (grp [lit "ful", lit "fully", lit "ed", lit "ing"])]),
  -- \bground(?:ed|ing)?\b
  wb (cat [lit "ground", .opt (grp [lit "ed", lit "ing"])]),
  -- \bcenter(?:ed|ing)?\b
  wb (cat [lit "center", .opt (grp [lit "ed", lit "ing"])]),
  -- \bbalance[ds]?\b
  wb (cat [lit "balance", .opt (.cls ['d', 's'])]),
  -- \bit(39)?s? (?:ok(?:ay)?|alright|fine)\b
  wb (cat [lit "it", .opt (.ch apos), .opt (lit "s"), lit " ",
    grp [cat [lit "ok", .opt (lit "ay")], lit "alright", lit "fine"]]),
  -- \ball is well\b
  wb (lit "all is well")]

end ETA

namespace ETA

/-- RECOGNITION patterns (weight 1.2 in the registry). -/
def RECOGNITION_patterns : List Regex := [
  -- \brecogni(?:ze|tion|zed|zing)\b
  wb (cat [lit "recogni", grp [lit "ze", lit "tion", lit "zed", lit "zing"]]),
  -- \bawar(?:e|eness)\b
  wb (cat [lit "awar", grp [lit "e", lit "eness"]]),
  -- \breali(?:ze|zation|zed|zing)\b
  wb (cat [lit "reali", grp [lit "ze", lit "zation", lit "zed", lit "zing"]]),
  -- \backnowledge[ds]?\b
  wb (cat [lit "acknowledge", .opt (.cls ['d', 's'])]),
  -- \binsight(?:ful|s)?\b
  wb (cat [lit "insight", .opt (grp [lit "ful", lit "s"])]),
  -- \bsee(?:ing)? (?:it|clearly|now)\b
  wb (cat [lit "see", .opt (lit "ing"), lit " ", grp [lit "it", lit "clearly", lit "now"]]),
  -- \bunderstand now\b
  wb (lit "understand now"),
  -- \bfinally (?:get|see|understand)\b
  wb (cat [lit "finally ", grp [lit "get", lit "see", lit "understand"]]),
  -- \baha\b
  wb (lit "aha"),
  -- \bof course\b
  wb (lit "of course"),
  -- \bnow i (?:see|get|understand)\b
  wb (cat [lit "now i ", grp [lit "see", lit "get", lit "understand"]]),
  -- \bawaken(?:ing|ed)?\b
  wb (cat [lit "awaken", .opt (grp [lit "ing", lit "ed"])]),
  -- \bepiphany\b
  wb (lit "epiphany"),
  -- \brevel(?:ation|ed)?\b
  wb (cat [lit "revel", .opt (grp [lit "ation", lit "ed"])]),
  -- \bdiscover(?:y|ed|ing|s)?\b
  wb (cat [lit "discover", .opt (grp [lit "y", lit "ed", lit "ing", lit "s"])]),
  -- \buncover(?:ed|ing|s)?\b
  wb (cat [lit "uncover", .opt (grp [lit "ed", lit "ing", lit "s"])])]

/-- BELONGING patterns. -/
def BELONGING_patterns : List Regex := [
  -- \bbelong(?:ing|s|ed)?\b
  wb (cat [lit "belong", .opt (grp [lit "ing", lit "s", lit "ed"])]),
  -- \binclu(?:de|sion|ded|ding|sive)\b
  wb (cat [lit "inclu", grp [lit "de", lit "sion", lit "ded", lit "ding", lit "sive"]]),
  -- \bunity\b
  wb (lit "unity"),
  -- \btogether(?:ness)?\b
  wb (cat [lit "together", .opt (lit "ness")]),
  -- \bfamily\b
  wb (lit "family"),
  -- \bteam\b
  wb (lit "team"),
  -- \bwe(?:(39)re| are)\b
  wb (cat [lit "we", grp [cat [.ch apos, lit "re"], lit " are"]]),
  -- \bour\b
  wb (lit "our"),
  -- \bus\b
  wb (lit "us"),
  -- \bcollective(?:ly)?\b
  wb (cat [lit "collective", .opt (lit "ly")]),
  -- \bcommunity\b
  wb (lit "community"),
  -- \btribe\b
  wb (lit "tribe"),
  -- \bbrotherhood\b
  wb (lit "brotherhood"),
  -- \bsisterhood\b
  wb (lit "sisterhood"),
  -- \bhome\b
  wb (lit "home"),
  -- \bwelcome[ds]?\b
  wb (cat [lit "welcome", .opt (.cls ['d', 's'])]),
  -- \baccepted\b
  wb (lit "accepted"),
  -- \bfit(?:ting)? in\b
  wb (cat [lit "fit", .opt (lit "ting"), lit " in"]),
  -- \bpart of\b
  wb (lit "part of"),
  -- \bone of us\b
  wb (lit "one of us"),
  -- \btogether for all time\b
  wb (lit "together for all time")]

/-- JOY patterns. -/
def JOY_patterns : List Regex := [
  -- \bjoy(?:ful|fully|ous|ously)?\b
  wb (cat [lit "joy", .opt (grp [lit "ful", lit "fully", lit "ous", lit "ously"])]),
  -- \bhapp(?:y|iness|ily)\b
  wb (cat [lit "happ", grp [lit "y", lit "iness", lit "ily"]]),
  -- \bexcit(?:ed?|ement|ing)\b
  wb (cat [lit "excit", grp [cat [lit "e", .opt (lit "d")], lit "ement", lit "ing"]]),
  -- \bcelebrat(?:e|ion|ed|ing)\b
  wb (cat [lit "celebrat", grp [lit "e", lit "ion", lit "ed", lit "ing"]]),
  -- \bgrateful(?:ly)?\b
  wb (cat [lit "grateful", .opt (lit "ly")]),
  -- \bgratitude\b
  wb (lit "gratitude"),
  -- \bthankful(?:ly)?\b
  wb (cat [lit "thankful", .opt (lit "ly")]),
  -- \bthank(?:s|ed|ing)?\b
  wb (cat [lit "thank", .opt (grp [lit "s", lit "ed", lit "ing"])]),
  -- \bdeligh(?:t|ted|tful|tfully)\b
  wb (cat [lit "deligh", grp [lit "t", lit "ted", lit "tful", lit "tfully"]]),
  -- \bpleas(?:ed?|ure|ant|antly)\b
  wb (cat [lit "pleas", grp [cat [lit "e", .opt (lit "d")], lit "ure", lit "ant", lit "antly"]]),
  -- \bwonderful(?:ly)?\b
  wb (cat [lit "wonderful", .opt (lit "ly")]),
  -- \bamazing(?:ly)?\b
  wb (cat [lit "amazing", .opt (lit "ly")]),
  -- \bfantastic(?:ally)?\b
  wb (cat [lit "fantastic", .opt (lit "ally")]),
  -- \bawesome\b
  wb (lit "awesome"),
  -- \b[!]{2,}\b
  wb (cat [.cls ['!'], .cls ['!'], .star (.cls ['!'])]),
  -- \byay\b
  wb (lit "yay"),
  -- \byes[!]+\b
  wb (cat [lit "yes", rplus (.cls ['!'])]),
  -- \bwoo(?:hoo)?\b
  wb (cat [lit "woo", .opt (lit "hoo")])]

/-- CURIOSITY patterns. -/
def CURIOSITY_patterns : List Regex := [
  -- \bcuriou(?:s|sity|sly)\b
  wb (cat [lit "curiou", grp [lit "s", lit "sity", lit "sly"]]),
  -- \bwonder(?:ing|ful|fully|ed|s)?\b
  wb (cat [lit "wonder", .opt (grp [lit "ing", lit "ful", lit "fully", lit "ed", lit "s"])]),
  -- \bexplor(?:e|ation|ing|ed|er)\b
  wb (cat [lit "explor", grp [lit "e", lit "ation", lit "ing", lit "ed", lit "er"]]),
  -- \binterest(?:ed|ing|ingly)?\b
  wb (cat [lit "interest", .opt (grp [lit "ed", lit "ing", lit "ingly"])]),
  -- \bquestion(?:s|ed|ing)?\b
  wb (cat [lit "question", .opt (grp [lit "s", lit "ed", lit "ing"])]),
  -- \bask(?:ed|ing|s)?\b
  wb (cat [lit "ask", .opt (grp [lit "ed", lit "ing", lit "s"])]),
  -- \binquir(?:e|y|ing)\b
  wb (cat [lit "inquir", grp [lit "e", lit "y", lit "ing"]]),
  -- \bfascinat(?:ed?|ing|ion)\b
  wb (cat [lit "fascinat", grp [cat [lit "e", .opt (lit "d")], lit "ing", lit "ion"]]),
  -- \bintrigu(?:ed?|ing)\b
  wb (cat [lit "intrigu", grp [cat [lit "e", .opt (lit "d")], lit "ing"]]),
  -- \bwhat if\b
  wb (lit "what if"),
  -- \bhow (?:does|do|can|could|would|will)\b
  wb (cat [lit "how ", grp [lit "does", lit "do", lit "can", lit "could", lit "would", lit "will"]]),
  -- \bwhy (?:does|do|is|are|would|could)\b
  wb (cat [lit "why ", grp [lit "does", lit "do", lit "is", lit "are", lit "would", lit "could"]]),
  -- \bi wonder\b
  wb (lit "i wonder"),
  -- \blearn(?:ed|ing|s)?\b
  wb (cat [lit "learn", .opt (grp [lit "ed", lit "ing", lit "s"])]),
  -- \bdiscover(?:y|ed|ing|s)?\b
  wb (cat [lit "discover", .opt (grp [lit "y", lit "ed", lit "ing", lit "s"])])]

/-- DETERMINATION patterns. -/
def DETERMINATION_patterns : List Regex := [
  -- \bdetermin(?:ed?|ation)\b
  wb (cat [lit "determin", grp [cat [lit "e", .opt (lit "d")], lit "ation"]]),
  -- \bresolv(?:e|ed|ing)\b
  wb (cat [lit "resolv", grp [lit "e", lit "ed", lit "ing"]]),
  -- \bcommit(?:ted|ment|ting)?\b
  wb (cat [lit "commit", .opt (grp [lit "ted", lit "ment", lit "ting"])]),
  -- \bpersever(?:e|ance|ed|ing)\b
  wb (cat [lit "persever", grp [lit "e", lit "ance", lit "ed", lit "ing"]]),
  -- \bfocus(?:ed|ing)?\b
  wb (cat [lit "focus", .opt (grp [lit "ed", lit "ing"])]),
  -- \bdedicate[ds]?\b
  wb (cat [lit "dedicate", .opt (.cls ['d', 's'])]),
  -- \bdevotion\b
  wb (lit "devotion"),
  -- \bwill(?:power)?\b
  wb (cat [lit "will", .opt (lit "power")]),
  -- \bpersist(?:ent|ence|ed|ing)?\b
  wb (cat [lit "persist", .opt (grp [lit "ent", lit "ence", lit "ed", lit "ing"])]),
  -- \bkeep going\b
  wb (lit "keep going"),
  -- \bnever give up\b
  wb (lit "never give up"),
  -- \bstay the course\b
  wb (lit "stay the course"),
  -- \bpush(?:ing)? (?:through|forward|on)\b
  wb (cat [lit "push", .opt (lit "ing"), lit " ", grp [lit "through", lit "forward", lit "on"]]),
  -- \bwon(39)?t stop\b
  wb (cat [lit "won", .opt (.ch apos), lit "t stop"]),
  -- \bmust\b
  wb (lit "must"),
  -- \bwill do\b
  wb (lit "will do"),
  -- \bgoing to\b
  wb (lit "going to"),
  -- \blet(39)?s? do\b
  wb (cat [lit "let", .opt (.ch apos), .opt (lit "s"), lit " do"])]

/-- The dimension registry in source iteration order: name, patterns,
weight (1.0 everywhere except RECOGNITION at 1.2). -/
def EMOTIONAL_DIMENSIONS : List (String × List Regex × ℚ) := [
  ("WARMTH", WARMTH_patterns, 1),
  ("RESONANCE", RESONANCE_patterns, 1),
  ("LONGING", LONGING_patterns, 1),
  ("FEAR", FEAR_patterns, 1),
  ("PEACE", PEACE_patterns, 1),
  ("RECOGNITION", RECOGNITION_patterns, 12 / 10),
  ("BELONGING", BELONGING_patterns, 1),
  ("JOY", JOY_patterns, 1),
  ("CURIOSITY", CURIOSITY_patterns, 1),
  ("DETERMINATION", DETERMINATION_patterns, 1)]

/-- INTENSITY_AMPLIFIERS (source lines 175-180). -/
def INTENSITY_AMPLIFIERS : List Regex := [
  wb (lit "very"), wb (lit "extremely"), wb (lit "incredibly"), wb (lit "immensely"),
  wb (lit "deeply"), wb (lit "profoundly"), wb (lit "intensely"), wb (lit "overwhelmingly"),
  wb (lit "absolutely"), wb (lit "completely"), wb (lit "totally"), wb (lit "utterly"),
  -- \bso\s+(?:much|very)\b
  wb (cat [lit "so", rplus .ws, grp [lit "much", lit "very"]])]

/-- INTENSITY_DIMINISHERS (source lines 182-186). -/
def INTENSITY_DIMINISHERS : List Regex := [
  wb (lit "slightly"), wb (lit "somewhat"), wb (lit "a bit"), wb (lit "a little"),
  wb (lit "kind of"), wb (lit "sort of"), wb (lit "maybe"), wb (lit "perhaps"),
  wb (lit "mildly"), wb (lit "faintly")]

end ETA

namespace ETA

/-! ## Scorer (EmotionalTextureAnalyzer.analyze and helpers) -/

/-- The record produced by `analyze` (source lines 367-380).  Python dicts
keyed by dimension are modelled as association lists in insertion
(= registry) order; `datetime.now().isoformat()` is the explicit `now`
argument. -/
structure Analysis where
  timestamp : String
  text_length : Nat
  word_count : Nat
  context : Option String
  dimension_scores : List (String × ℚ)
  dimension_matches : List (String × List String)
  dominant_emotion : String
  dominant_score : ℚ
  overall_intensity : ℚ
  intensity_level : String
  intensity_modifier : ℚ
  emotional_signature : String
deriving Repr, DecidableEq

/-- All matches of one dimension: each pattern is run over the full text
and the results are concatenated (source lines 329-332; matching is done
on the original text, the patterns being case-insensitive). -/
def dimMatchList (text : String) (pats : List Regex) : List (List Char) :=
  pats.flatMap (fun r => pyFindall text.data r)

/-- Total amplifier matches in the text (source line 394). -/
def amplifierCount (text : String) : Nat :=
  (INTENSITY_AMPLIFIERS.map (fun r => (pyFindall text.data r).length)).sum

/-- Total diminisher matches in the text (source line 395). -/
def diminisherCount (text : String) : Nat :=
  (INTENSITY_DIMINISHERS.map (fun r => (pyFindall text.data r).length)).sum

/-- `_calculate_intensity_modifier` (source lines 384-401):
`max(0.5, min(2.0, 1.0 + amplifiers*0.1 - diminishers*0.1))`. -/
def intensityModifier (text : String) : ℚ :=
  max (1 / 2) (min 2
    (1 + (amplifierCount text : ℚ) * (1 / 10) - (diminisherCount text : ℚ) * (1 / 10)))

/-- Per-dimension normalized scores before the intensity modifier
(source lines 328-344): raw = matches × weight, normalized per 100 words,
with the defensive 0 when the text has no tokens, rounded to 2 places. -/
def dimensionScores (text : String) : List (String × ℚ) :=
  EMOTIONAL_DIMENSIONS.map (fun d =>
    let raw : ℚ := ((dimMatchList text d.2.1).length : ℚ) * d.2.2
    let wc := pyWordCount text
    (d.1, pyRound2 (if 0 < wc then raw / (wc : ℚ) * 100 else 0)))

/-- Adjusted scores: `round(score * intensity_modifier, 2)` per dimension
(source lines 351-354). -/
def adjustedScores (text : String) : List (String × ℚ) :=
  (dimensionScores text).map (fun p => (p.1, pyRound2 (p.2 * intensityModifier text)))

/-- The per-dimension unique matched substrings, `list(set(matches))`
(source line 345); CPython set iteration order is unspecified, so it is
modelled as first-occurrence order. -/
def dimensionMatches (text : String) : List (String × List String) :=
  EMOTIONAL_DIMENSIONS.map (fun d =>
    (d.1, ((dimMatchList text d.2.1).map (fun cs => String.mk cs)).eraseDups))

/-- `max(adjusted_scores, key=adjusted_scores.get)` (source line 357):
iterate in insertion order, replacing the best only on a strictly greater
value, so the first key attaining the maximum wins. -/
def pyMaxEntry : List (String × ℚ) → Option (String × ℚ)
  | [] => none
  | x :: xs => some (xs.foldl (fun b y => if b.2 < y.2 then y else b) x)

/-- `_get_intensity_level` (source lines 403-420). -/
def intensityLevel (q : ℚ) : String :=
  if q < 1 then "subtle"
  else if q < 3 then "moderate"
  else if q < 6 then "strong"
  else "intense"

/-- Stable insertion (descending by score) of one scored dimension after
all entries with a greater-or-equal score, modelling the stability of
`sorted(..., key=score, reverse=True)`. -/
def insDesc : List (String × ℚ) → (String × ℚ) → List (String × ℚ)
  | [], x => [x]
  | y :: ys, x => if y.2 < x.2 then x :: y :: ys else y :: insDesc ys x

/-- Stable descending sort by score. -/
def sortDesc (l : List (String × ℚ)) : List (String × ℚ) := l.foldl insDesc []

/-- Rendering of a two-decimal score the way CPython prints the float
(`33.33`, `2.5`, `1.0`, `0.07`); every score reaching the signature is a
non-negative multiple of 1/100. -/
def scoreRepr (q : ℚ) : String :=
  let n : Int := ⌊q * 100⌋
  let whole := n / 100
  let frac := n % 100
  if frac = 0 then toString whole ++ ".0"
  else if frac % 10 = 0 then toString whole ++ "." ++ toString (frac / 10)
  else toString whole ++ "." ++ toString (frac / 10) ++ toString (frac % 10)

/-- `_generate_signature` (source lines 422-434): top three dimensions by
adjusted score (stable descending sort), those with score > 0, joined as
`DIM:score` with `|`. -/
def emotionalSignature (scores : List (String × ℚ)) : String :=
  String.intercalate "|"
    (((sortDesc scores).take 3).filterMap (fun p =>
      if 0 < p.2 then some (p.1 ++ ":" ++ scoreRepr p.2) else none))

/-- `analyze` (source lines 307-382).  `none` models the `ValueError`
raised on empty input (the non-string cases of the `isinstance` check are
modelled separately by `analyzePy`). -/
def analyzeAt (now : String) (context : Option String) (text : String) : Option Analysis :=
  if text = "" then none
  else
    let adjusted := adjustedScores text
    let dom := (pyMaxEntry adjusted).getD ("", 0)
    let overall := pyRound2 ((adjusted.map Prod.snd).sum / (adjusted.length : ℚ))
    some {
      timestamp := now
      text_length := text.length
      word_count := pyWordCount text
      context := context
      dimension_scores := adjusted
      dimension_matches := dimensionMatches text
      dominant_emotion := dom.1
      dominant_score := dom.2
      overall_intensity := overall
      intensity_level := intensityLevel overall
      intensity_modifier := pyRound2 (intensityModifier text)
      emotional_signature := emotionalSignature adjusted }

end ETA


namespace ETA

/-! ## Input validation (`not text or not isinstance(text, str)`) -/

/-- A dynamically typed Python argument, as exercised by the spec's
invalid-input scenarios (a string, `None`, or an integer). -/
inductive PyValue where
  | str (s : String)
  | pyNone
  | int (n : Int)
deriving Repr, DecidableEq

/-- `analyze` on a dynamically typed argument: the guard
`not text or not isinstance(text, str)` (source line 318) rejects the
empty string and every non-string value. -/
def analyzePy (now : String) (context : Option String) : PyValue → Option Analysis
  | .str s => analyzeAt now context s
  | _ => none

/-! ## Aggregator (`analyze_messages`, source lines 436-500) -/

/-- An input message dict: `content`, `sender` and `timestamp` keys may
each be absent (`msg.get` defaults apply). -/
structure Message where
  content : Option String
  sender : Option String
  timestamp : Option String
deriving Repr, DecidableEq

/-- One analyzed message: the `analyze` record plus the `sender` and
`message_timestamp` entries the aggregator adds (source lines 458-459). -/
structure MsgAnalysis where
  analysis : Analysis
  sender : String
  message_timestamp : String
deriving Repr, DecidableEq

/-- Per-sender aggregate (source lines 490-498). -/
structure SenderStats where
  count : Nat
  avg_intensity : ℚ
deriving Repr, DecidableEq

/-- The batch record returned by `analyze_messages`
(source lines 484-500). -/
structure BatchResult where
  total_messages : Nat
  analyzed_messages : Nat
  average_scores : List (String × ℚ)
  dominant_overall : String
  emotional_arc : List (String × String × ℚ)
  by_sender : List (String × SenderStats)
  individual_analyses : List MsgAnalysis
deriving Repr, DecidableEq

/-- Association-list lookup by key (Python dict read). -/
def alookup (k : String) : List (String × α) → Option α
  | [] => none
  | p :: rest => if p.1 = k then some p.2 else alookup k rest

/-- One iteration of the aggregator loop (source lines 452-461): a
message whose `content` is missing or empty is skipped (`none`), every
other message is scored with `context = sender` and annotated. -/
def analyzeOne (now : String) (m : Message) : Option MsgAnalysis :=
  let content := m.content.getD ""
  let sender := m.sender.getD "UNKNOWN"
  if content = "" then none
  else (analyzeAt now (some sender) content).map (fun a =>
    { analysis := a, sender := sender, message_timestamp := m.timestamp.getD "unknown" })

/-- The analyses of the non-empty messages, in input order. -/
def batchAnalyses (now : String) (messages : List Message) : List MsgAnalysis :=
  messages.filterMap (analyzeOne now)

/-- Dimension keys in first-appearance order across the analyses
(the `all_scores` defaultdict insertion order, source lines 464-467). -/
def keysInOrder (ls : List MsgAnalysis) : List String :=
  (ls.flatMap (fun a => a.analysis.dimension_scores.map Prod.fst)).eraseDups

/-- `avg_scores` (source lines 469-472): per dimension, the mean of its
adjusted score across analyses, rounded to 2 places.  (Each analysis
carries each key exactly once, so collecting by lookup agrees with the
defaultdict append.) -/
def averageScores (ls : List MsgAnalysis) : List (String × ℚ) :=
  (keysInOrder ls).map (fun k =>
    let scores := ls.filterMap (fun a => alookup k a.analysis.dimension_scores)
    (k, pyRound2 (scores.sum / (scores.length : ℚ))))

/-- Senders in first-appearance order among analyzed messages
(the `by_sender` defaultdict insertion order). -/
def sendersInOrder (ls : List MsgAnalysis) : List String :=
  (ls.map (fun a => a.sender)).eraseDups

/-- The `by_sender` mapping (source lines 490-498). -/
def bySender (ls : List MsgAnalysis) : List (String × SenderStats) :=
  (sendersInOrder ls).map (fun s =>
    let group := ls.filter (fun a => a.sender = s)
    (s, { count := group.length
          avg_intensity :=
            if group = [] then 0
            else pyRound2 ((group.map (fun a => a.analysis.overall_intensity)).sum
              / (group.length : ℚ)) }))

/-- `analyze_messages` (source lines 436-500); `none` models the
`ValueError` on an empty message list. -/
def analyzeMessages (now : String) (messages : List Message) : Option BatchResult :=
  if messages = [] then none
  else
    let ls := batchAnalyses now messages
    let avg := averageScores ls
    some {
      total_messages := messages.length
      analyzed_messages := ls.length
      average_scores := avg
      dominant_overall := ((pyMaxEntry avg).map Prod.fst).getD "UNKNOWN"
      emotional_arc := ls.map (fun a =>
        (a.sender, a.analysis.dominant_emotion, a.analysis.overall_intensity))
      by_sender := bySender ls
      individual_analyses := ls }

/-! ## Profile tracker (EmotionalProfile, `add_to_profile`) -/

/-- `EmotionalProfile` mutable state (source lines 189-207). -/
structure EmotionalProfile where
  agent_name : String
  analyses : List Analysis
  created_at : String
  last_updated : String
deriving Repr, DecidableEq

/-- `EmotionalProfile.__init__` (source lines 192-202); `now` is the
`datetime.now().isoformat()` reading. -/
def EmotionalProfile.init (agent : String) (now : String) : EmotionalProfile :=
  { agent_name := agent, analyses := [], created_at := now, last_updated := now }

/-- `EmotionalProfile.add_analysis` (source lines 204-207). -/
def EmotionalProfile.add_analysis (p : EmotionalProfile) (a : Analysis) (now : String) :
    EmotionalProfile :=
  { p with analyses := p.analyses ++ [a], last_updated := now }

/-- `add_to_profile` (source lines 575-590) over the analyzer's
`self.profiles` dict, modelled as an insertion-ordered association list:
create the profile on first sight (`nowInit` reading), then append the
analysis (`nowAdd` reading). -/
def add_to_profile (profiles : List (String × EmotionalProfile)) (agent : String)
    (a : Analysis) (nowInit nowAdd : String) : List (String × EmotionalProfile) :=
  (if profiles.any (fun q => q.1 = agent) then profiles
   else profiles ++ [(agent, EmotionalProfile.init agent nowInit)]).map
    (fun q => if q.1 = agent then (q.1, q.2.add_analysis a nowAdd) else q)

end ETA


namespace ETA

/-! ## Helper lemmas -/

/-- Rounding to two places preserves non-negativity. -/
lemma pyRound2_nonneg (q : ℚ) (h : 0 ≤ q) : 0 ≤ pyRound2 q := by
  have h1 : (0 : ℤ) ≤ round (q * 100) := by
    rw [round_eq]
    have : (0 : ℤ) ≤ ⌊(1 : ℚ) / 2⌋ := by norm_num
    calc (0 : ℤ) ≤ ⌊(1 : ℚ) / 2⌋ := this
      _ ≤ ⌊q * 100 + 1 / 2⌋ := by
          apply Int.floor_le_floor
          nlinarith
  unfold pyRound2
  positivity

/-- Rounding an exact zero gives zero. -/
lemma pyRound2_zero : pyRound2 0 = 0 := by
  norm_num [pyRound2]

/-- The intensity modifier is clamped below by 1/2. -/
lemma intensityModifier_ge (text : String) : 1 / 2 ≤ intensityModifier text :=
  le_max_left _ _

/-- Every registry weight is non-negative. -/
lemma weight_nonneg : ∀ d ∈ EMOTIONAL_DIMENSIONS, (0 : ℚ) ≤ d.2.2 := by
  intro d hd
  have h2 : d.2.2 ∈ EMOTIONAL_DIMENSIONS.map (fun x => x.2.2) :=
    List.mem_map_of_mem _ hd
  have h3 : EMOTIONAL_DIMENSIONS.map (fun x => x.2.2)
      = [1, 1, 1, 1, 1, 12 / 10, 1, 1, 1, 1] := rfl
  rw [h3] at h2
  simp only [List.mem_cons, List.not_mem_nil, or_false] at h2
  rcases h2 with h | h | h | h | h | h | h | h | h | h <;> rw [h] <;> norm_num

/-- The ten dimension names in registry order. -/
def dimNames : List String :=
  ["WARMTH", "RESONANCE", "LONGING", "FEAR", "PEACE",
   "RECOGNITION", "BELONGING", "JOY", "CURIOSITY", "DETERMINATION"]

/-- The normalized score list is keyed exactly by the registry names. -/
lemma dimensionScores_keys (text : String) :
    (dimensionScores text).map Prod.fst = dimNames := by
  rw [dimensionScores, List.map_map]
  rfl

/-- The adjusted score list is keyed exactly by the registry names. -/
lemma adjustedScores_keys (text : String) :
    (adjustedScores text).map Prod.fst = dimNames := by
  rw [adjustedScores, List.map_map]
  have : (Prod.fst ∘ fun p : String × ℚ => (p.1, pyRound2 (p.2 * intensityModifier text)))
      = Prod.fst := rfl
  rw [this, dimensionScores_keys]

/-- Every normalized score is non-negative. -/
lemma dimensionScores_nonneg (text : String) :
    ∀ p ∈ dimensionScores text, 0 ≤ p.2 := by
  intro p hp
  rw [dimensionScores] at hp
  obtain ⟨d, hd, rfl⟩ := List.mem_map.1 hp
  apply pyRound2_nonneg
  by_cases hwc : 0 < pyWordCount text
  · rw [if_pos hwc]
    have hw : (0 : ℚ) ≤ d.2.2 := weight_nonneg d hd
    positivity
  · rw [if_neg hwc]

/-- Every adjusted score is non-negative. -/
lemma adjustedScores_nonneg (text : String) :
    ∀ p ∈ adjustedScores text, 0 ≤ p.2 := by
  intro p hp
  rw [adjustedScores] at hp
  obtain ⟨q, hq, rfl⟩ := List.mem_map.1 hp
  apply pyRound2_nonneg
  apply mul_nonneg (dimensionScores_nonneg text q hq)
  exact le_trans (by norm_num) (intensityModifier_ge text)

/-- Explicit shape of a successful `analyze` call. -/
lemma analyzeAt_eq (now : String) (ctx : Option String) (text : String) (h : text ≠ "") :
    analyzeAt now ctx text = some {
      timestamp := now
      text_length := text.length
      word_count := pyWordCount text
      context := ctx
      dimension_scores := adjustedScores text
      dimension_matches := dimensionMatches text
      dominant_emotion := ((pyMaxEntry (adjustedScores text)).getD ("", 0)).1
      dominant_score := ((pyMaxEntry (adjustedScores text)).getD ("", 0)).2
      overall_intensity := pyRound2 (((adjustedScores text).map Prod.snd).sum
        / ((adjustedScores text).length : ℚ))
      intensity_level := intensityLevel (pyRound2 (((adjustedScores text).map Prod.snd).sum
        / ((adjustedScores text).length : ℚ)))
      intensity_modifier := pyRound2 (intensityModifier text)
      emotional_signature := emotionalSignature (adjustedScores text) } := by
  rw [analyzeAt, if_neg h]

end ETA

namespace ETA

set_option maxRecDepth 40000

/-! ## Claims -/

/-- C1: for every non-empty text accepted by `analyze`, the returned
record's `dimension_scores` mapping is keyed by exactly the ten registry
dimensions (WARMTH, RESONANCE, LONGING, FEAR, PEACE, RECOGNITION,
BELONGING, JOY, CURIOSITY, DETERMINATION), in registry order, and every
value is a non-negative rational (finiteness is automatic in the exact
model). -/
theorem C1_dimension_scores_invariant (now : String) (ctx : Option String)
    (text : String) (h : text ≠ "") :
    ∃ r, analyzeAt now ctx text = some r ∧
      r.dimension_scores.map Prod.fst = dimNames ∧
      ∀ p ∈ r.dimension_scores, 0 ≤ p.2 :=
  ⟨_, analyzeAt_eq now ctx text h, adjustedScores_keys text, adjustedScores_nonneg text⟩

/-- Witness for C1 at the concrete text "hello". -/
theorem C1_witness :
    ("hello" ≠ "") ∧
    ∃ r, analyzeAt "t" Option.none "hello" = some r ∧
      r.dimension_scores.map Prod.fst = dimNames ∧
      ∀ p ∈ r.dimension_scores, 0 ≤ p.2 :=
  ⟨by decide, C1_dimension_scores_invariant "t" Option.none "hello" (by decide)⟩

/-- An analysis record with its call-time timestamp blanked out. -/
def stripTimestamp (a : Analysis) : Analysis := { a with timestamp := "" }

/-- C2 counterexample: two `analyze` calls on the same text at different
clock readings differ (the `timestamp` field records the call time), so
the results are not byte-identical in every field. -/
theorem C2_counterexample :
    analyzeAt "2026-01-30T10:00:00" Option.none "hello"
      ≠ analyzeAt "2026-01-30T10:00:01" Option.none "hello" := by decide

/-- C2 amended: two `analyze` calls on the same text agree on every field
except `timestamp` — scoring is a pure function of the text (and context),
with only the recorded call time varying. -/
theorem C2_idempotent_except_timestamp (n1 n2 : String) (ctx : Option String)
    (text : String) :
    (analyzeAt n1 ctx text).map stripTimestamp
      = (analyzeAt n2 ctx text).map stripTimestamp := by
  by_cases h : text = ""
  · simp [analyzeAt, h]
  · rw [analyzeAt_eq _ _ _ h, analyzeAt_eq _ _ _ h]
    rfl

/-- C3 counterexample: a whitespace-only text passes the non-empty input
validation yet contains no whitespace-delimited token, so the defensive
`word_count == 0` branch is reachable for validated input. -/
theorem C3_counterexample :
    (" " ≠ "") ∧ pyWordCount " " = 0 ∧
      (analyzeAt "t" Option.none " ").map Analysis.word_count = some 0 := by decide

/-- Tokens survive as long as some character is not whitespace. -/
lemma pyWordsAux_ne_nil : ∀ (l acc : List Char),
    (acc ≠ [] ∨ ∃ c ∈ l, isPySpace c = false) → pyWordsAux l acc ≠ [] := by
  intro l
  induction l with
  | nil =>
      intro acc h
      have hacc : acc ≠ [] := by
        rcases h with h | ⟨c, hc, _⟩
        · exact h
        · exact absurd hc (List.not_mem_nil c)
      rw [pyWordsAux, if_neg hacc]
      exact List.cons_ne_nil _ _
  | cons c rest ih =>
      intro acc h
      rw [pyWordsAux]
      by_cases hsp : isPySpace c
      · rw [if_pos hsp]
        by_cases hacc : acc = []
        · rw [if_pos hacc]
          apply ih
          refine Or.inr ?_
          rcases h with h | ⟨c₂, hc₂, hc₂s⟩
          · exact absurd hacc h
          · rcases List.mem_cons.1 hc₂ with rfl | hc₂r
            · rw [hsp] at hc₂s
              exact absurd hc₂s (by simp)
            · exact ⟨c₂, hc₂r, hc₂s⟩
        · rw [if_neg hacc]
          exact List.cons_ne_nil _ _
      · rw [if_neg hsp]
        exact ih _ (Or.inl (List.cons_ne_nil _ _))

/-- A text with a non-whitespace character has at least one token. -/
lemma pyWordCount_pos (text : String) (h : ∃ c ∈ text.data, isPySpace c = false) :
    0 < pyWordCount text := by
  rw [pyWordCount, pyWords]
  exact List.length_pos.2 (pyWordsAux_ne_nil text.data [] (Or.inr h))

/-- C3 amended: a validated (non-empty) text may still be whitespace-only,
in which case `word_count` is 0 and the defensive branch yields a
normalized score of 0 for every dimension; for any validated text
containing at least one non-whitespace character, the text has at least
one token and the branch is unreachable. -/
theorem C3_zero_word_count_reachable (now : String) (ctx : Option String)
    (text : String) (h : text ≠ "") :
    ((∃ c ∈ text.data, isPySpace c = false) → 0 < pyWordCount text) ∧
    (pyWordCount text = 0 →
      ∃ r, analyzeAt now ctx text = some r ∧ ∀ p ∈ r.dimension_scores, p.2 = 0) := by
  constructor
  · exact pyWordCount_pos text
  · intro h0
    refine ⟨_, analyzeAt_eq now ctx text h, ?_⟩
    intro p hp
    rw [adjustedScores] at hp
    obtain ⟨q, hq, rfl⟩ := List.mem_map.1 hp
    rw [dimensionScores] at hq
    obtain ⟨d, _, rfl⟩ := List.mem_map.1 hq
    dsimp only
    rw [h0]
    norm_num [pyRound2_zero]

/-- Witness for C3 (amended) at the concrete text "hi". -/
theorem C3_witness :
    ("hi" ≠ "") ∧ 0 < pyWordCount "hi" :=
  ⟨by decide,
    (C3_zero_word_count_reachable "t" Option.none "hi" (by decide)).1
      ⟨'h', by decide, by decide⟩⟩

/-- C4: for every text, the intensity modifier is exactly
`clamp(1 + 0.1*A - 0.1*D, 0.5, 2.0)` where `A` and `D` are the total
amplifier and diminisher match counts; with at least 15 net amplifier
matches it is exactly 2, and with at least 15 net diminisher matches it
is exactly 1/2. -/
theorem C4_intensity_modifier_clamp (text : String) :
    intensityModifier text
      = max (1 / 2) (min 2 (1 + (amplifierCount text : ℚ) * (1 / 10)
          - (diminisherCount text : ℚ) * (1 / 10))) ∧
    (diminisherCount text + 15 ≤ amplifierCount text → intensityModifier text = 2) ∧
    (amplifierCount text + 15 ≤ diminisherCount text → intensityModifier text = 1 / 2) := by
  refine ⟨rfl, ?_, ?_⟩
  · intro h
    have h' : (diminisherCount text : ℚ) + 15 ≤ (amplifierCount text : ℚ) := by
      exact_mod_cast h
    rw [intensityModifier, min_eq_left (by linarith), max_eq_right (by norm_num)]
  · intro h
    have h' : (amplifierCount text : ℚ) + 15 ≤ (diminisherCount text : ℚ) := by
      exact_mod_cast h
    rw [intensityModifier, min_eq_right (by linarith), max_eq_left (by linarith)]

/-- A text holding 15 amplifier matches and no diminisher match. -/
def amplifierRichText : String :=
  "very very very very very very very very very very very very very very very"

/-- A text holding 15 diminisher matches and no amplifier match. -/
def diminisherRichText : String :=
  "maybe maybe maybe maybe maybe maybe maybe maybe maybe maybe maybe maybe maybe maybe maybe"

/-- Witness for C4: both clamp branches fire at concrete texts. -/
theorem C4_witness :
    (diminisherCount amplifierRichText + 15 ≤ amplifierCount amplifierRichText
      ∧ intensityModifier amplifierRichText = 2) ∧
    (amplifierCount diminisherRichText + 15 ≤ diminisherCount diminisherRichText
      ∧ intensityModifier diminisherRichText = 1 / 2) := by
  have h1 : diminisherCount amplifierRichText + 15 ≤ amplifierCount amplifierRichText := by
    decide
  have h2 : amplifierCount diminisherRichText + 15 ≤ diminisherCount diminisherRichText := by
    decide
  exact ⟨⟨h1, (C4_intensity_modifier_clamp amplifierRichText).2.1 h1⟩,
    ⟨h2, (C4_intensity_modifier_clamp diminisherRichText).2.2 h2⟩⟩

end ETA

namespace ETA

/-- The score-dominance test: entry `p` dominates list `l` when its score
is greater than or equal to every score in `l`. -/
def allLe (l : List (String × ℚ)) (p : String × ℚ) : Bool :=
  l.all (fun q => decide (q.2 ≤ p.2))

/-- `find?` only depends on the predicate values on the list. -/
lemma find?_congr {α : Type} (p q : α → Bool) :
    ∀ l : List α, (∀ x ∈ l, p x = q x) → l.find? p = l.find? q := by
  intro l
  induction l with
  | nil => intro _; rfl
  | cons x xs ih =>
      intro h
      have hx := h x (List.mem_cons_self x xs)
      simp only [List.find?]
      rw [hx]
      cases q x
      · exact ih (fun y hy => h y (List.mem_cons_of_mem x hy))
      · rfl

/-- Python `max(..., key=...)` over a non-empty association list returns
the first entry whose score is greater than or equal to all scores. -/
lemma foldl_max_first : ∀ (xs : List (String × ℚ)) (x : String × ℚ),
    (x :: xs).find? (allLe (x :: xs))
      = some (xs.foldl (fun b y => if b.2 < y.2 then y else b) x) := by
  intro xs
  induction xs with
  | nil =>
      intro x
      have hx : allLe [x] x = true := by simp [allLe]
      simp [List.find?, hx]
  | cons y t ih =>
      intro x
      rw [List.foldl_cons]
      by_cases hlt : x.2 < y.2
      · rw [if_pos hlt]
        have hx : allLe (x :: y :: t) x = false := by
          rw [allLe, List.all_eq_false]
          exact ⟨y, List.mem_cons_of_mem x (List.mem_cons_self y t), by simp [not_le.2 hlt]⟩
        have hstep : (x :: y :: t).find? (allLe (x :: y :: t))
            = (y :: t).find? (allLe (x :: y :: t)) := by
          simp only [List.find?, hx]
        rw [hstep,
          find?_congr (allLe (x :: y :: t)) (allLe (y :: t)) (y :: t) ?hcongr, ih y]
        case hcongr =>
          intro p _
          rw [allLe, allLe, List.all_cons]
          cases hrest : (y :: t).all (fun q => decide (q.2 ≤ p.2))
          · rw [Bool.and_false]
          · have hyp : y.2 ≤ p.2 := by
              have := (List.all_eq_true.1 hrest) y (List.mem_cons_self y t)
              exact of_decide_eq_true this
            rw [decide_eq_true (le_trans (le_of_lt hlt) hyp), Bool.true_and]
      · rw [if_neg hlt]
        have hyx : y.2 ≤ x.2 := le_of_not_lt hlt
        have hcongr2 : ∀ p, allLe (x :: y :: t) p = allLe (x :: t) p := by
          intro p
          rw [allLe, allLe, List.all_cons, List.all_cons, List.all_cons]
          cases hdx : decide (x.2 ≤ p.2)
          · rw [Bool.false_and, Bool.false_and]
          · have hxp : x.2 ≤ p.2 := of_decide_eq_true hdx
            simp [decide_eq_true (le_trans hyx hxp)]
        rw [find?_congr (allLe (x :: y :: t)) (allLe (x :: t)) (x :: y :: t)
          (fun p _ => hcongr2 p)]
        cases hPx : allLe (x :: t) x
        · have hPy : allLe (x :: t) y = false := by
            cases hPy : allLe (x :: t) y
            · rfl
            · exfalso
              rw [allLe, List.all_cons] at hPy hPx
              rw [Bool.and_eq_true] at hPy
              obtain ⟨hxy, ht⟩ := hPy
              have hxy' : x.2 ≤ y.2 := of_decide_eq_true hxy
              have heq : y.2 = x.2 := le_antisymm hyx hxy'
              rw [decide_eq_true (le_refl x.2), Bool.true_and] at hPx
              have hall : t.all (fun q => decide (q.2 ≤ x.2)) = true := by
                rw [List.all_eq_true]
                intro q hq
                have hmem := (List.all_eq_true.1 ht) q hq
                exact decide_eq_true (heq ▸ of_decide_eq_true hmem)
              rw [hall] at hPx
              exact absurd hPx (by decide)
          rw [← ih x]
          simp only [List.find?, hPx, hPy]
        · rw [← ih x]
          simp only [List.find?, hPx]

/-- The dominant dimension as the specification words it: the first entry
in iteration order whose score is greater than or equal to every score in
the mapping. -/
def specDominant (l : List (String × ℚ)) : Option (String × ℚ) :=
  l.find? (allLe l)

/-- Python `max(dict, key=dict.get)` agrees with the spec-side dominant
selection on every non-empty score list. -/
lemma pyMaxEntry_spec (l : List (String × ℚ)) (h : l ≠ []) :
    specDominant l = pyMaxEntry l := by
  match l with
  | [] => exact absurd rfl h
  | x :: xs => rw [specDominant, pyMaxEntry]; exact foldl_max_first xs x

/-- `pyMaxEntry` of a non-empty list is some value. -/
lemma pyMaxEntry_isSome (l : List (String × ℚ)) (h : l ≠ []) :
    ∃ m, pyMaxEntry l = some m := by
  match l with
  | [] => exact absurd rfl h
  | x :: xs => exact ⟨_, rfl⟩

/-- The adjusted score list is never empty (it has the ten keys). -/
lemma adjustedScores_ne_nil (text : String) : adjustedScores text ≠ [] := by
  intro h0
  have hk := adjustedScores_keys text
  rw [h0] at hk
  exact absurd hk (by decide)

/-- C5: the dominant dimension reported by `analyze` is the dimension
with the maximum adjusted score, the first one in registry iteration
order when several share that maximum. -/
theorem C5_dominant_is_first_max (now : String) (ctx : Option String)
    (text : String) (h : text ≠ "") :
    ∃ r, analyzeAt now ctx text = some r ∧
      specDominant r.dimension_scores = some (r.dominant_emotion, r.dominant_score) := by
  refine ⟨_, analyzeAt_eq now ctx text h, ?_⟩
  dsimp only
  rw [pyMaxEntry_spec _ (adjustedScores_ne_nil text)]
  obtain ⟨m, hm⟩ := pyMaxEntry_isSome _ (adjustedScores_ne_nil text)
  rw [hm]
  simp [Option.getD]

/-- Witness for C5 at the concrete text "hello". -/
theorem C5_witness :
    ("hello" ≠ "") ∧
    ∃ r, analyzeAt "t" Option.none "hello" = some r ∧
      specDominant r.dimension_scores = some (r.dominant_emotion, r.dominant_score) :=
  ⟨by decide, C5_dominant_is_first_max "t" Option.none "hello" (by decide)⟩

end ETA

namespace ETA

/-- A message with empty or missing content is skipped. -/
lemma analyzeOne_none (now : String) (m : Message) (hc : m.content.getD "" = "") :
    analyzeOne now m = none := by
  rw [analyzeOne]
  rw [if_pos hc]

/-- A message with non-empty content is always scored. -/
lemma analyzeOne_some (now : String) (m : Message) (hc : m.content.getD "" ≠ "") :
    ∃ a, analyzeOne now m = some a := by
  rw [analyzeOne]
  rw [if_neg hc, analyzeAt_eq _ _ _ hc]
  exact ⟨_, rfl⟩

/-- The aggregator scores exactly the messages with non-empty content. -/
lemma batchAnalyses_length (now : String) (messages : List Message) :
    (batchAnalyses now messages).length
      = (messages.filter (fun m => decide (m.content.getD "" ≠ ""))).length := by
  induction messages with
  | nil => rfl
  | cons m rest ih =>
      rw [batchAnalyses, List.filterMap_cons] at *
      by_cases hc : m.content.getD "" = ""
      · rw [analyzeOne_none now m hc, List.filter_cons_of_neg (by simp [hc]), ih]
      · obtain ⟨a, ha⟩ := analyzeOne_some now m hc
        rw [ha, List.filter_cons_of_pos (by simp [hc]), List.length_cons,
          List.length_cons, ih]

/-- C6: scoring rejects exactly the invalid inputs — the empty string and
every non-string value raise, every non-empty string succeeds; batch
scoring rejects exactly the empty message list. -/
theorem C6_invalid_input (now : String) (ctx : Option String) :
    analyzePy now ctx (.str "") = none ∧
    analyzePy now ctx .pyNone = none ∧
    (∀ n : Int, analyzePy now ctx (.int n) = none) ∧
    (∀ s : String, s ≠ "" → (analyzePy now ctx (.str s)).isSome = true) ∧
    analyzeMessages now [] = none ∧
    (∀ msgs : List Message, msgs ≠ [] → (analyzeMessages now msgs).isSome = true) := by
  refine ⟨?_, rfl, fun n => rfl, ?_, ?_, ?_⟩
  · show analyzeAt now ctx "" = none
    rw [analyzeAt, if_pos rfl]
  · intro s hs
    show (analyzeAt now ctx s).isSome = true
    rw [analyzeAt_eq now ctx s hs]
    rfl
  · rw [analyzeMessages, if_pos rfl]
  · intro msgs hm
    rw [analyzeMessages, if_neg hm]
    rfl

/-- Witness for C6: a concrete valid text and a concrete non-empty batch
are both accepted. -/
theorem C6_witness :
    ("hi" ≠ "") ∧ (analyzePy "t" Option.none (.str "hi")).isSome = true ∧
    ([({ content := some "hi", sender := Option.none, timestamp := Option.none } :
        Message)] ≠ []) ∧
    (analyzeMessages "t"
      [{ content := some "hi", sender := Option.none, timestamp := Option.none }]).isSome
      = true :=
  ⟨by decide,
   (C6_invalid_input "t" Option.none).2.2.2.1 "hi" (by decide),
   by decide,
   (C6_invalid_input "t" Option.none).2.2.2.2.2 _ (by decide)⟩

/-- The spec scenario batch: three non-empty messages with senders FORGE,
CLIO, FORGE. -/
def exampleBatch3 : List Message :=
  [{ content := some "we are happy", sender := some "FORGE", timestamp := Option.none },
   { content := some "calm peace", sender := some "CLIO", timestamp := Option.none },
   { content := some "great team", sender := some "FORGE", timestamp := Option.none }]

/-- C7: for every non-empty batch, messages with empty or missing content
are skipped without failing (counted in `total_messages`, not in
`analyzed_messages`) while every remaining message is scored, and on the
FORGE/CLIO/FORGE scenario the per-sender counts are 2 and 1 with
`total_messages == 3 == analyzed_messages`. -/
theorem C7_batch_skips_and_counts (now : String) (msgs : List Message) (h : msgs ≠ []) :
    (∃ b, analyzeMessages now msgs = some b ∧
      b.total_messages = msgs.length ∧
      b.analyzed_messages = (msgs.filter (fun m => decide (m.content.getD "" ≠ ""))).length ∧
      b.individual_analyses.length = b.analyzed_messages) ∧
    (analyzeMessages "t0" exampleBatch3).map (fun b =>
        (b.total_messages, b.analyzed_messages,
         (alookup "FORGE" b.by_sender).map SenderStats.count,
         (alookup "CLIO" b.by_sender).map SenderStats.count))
      = some (3, 3, some 2, some 1) := by
  constructor
  · rw [analyzeMessages, if_neg h]
    exact ⟨_, rfl, rfl, batchAnalyses_length now msgs, rfl⟩
  · decide

/-- A concrete batch in which the second message has empty content and
the third has no content key at all. -/
def exampleBatchSkip : List Message :=
  [{ content := some "hello there", sender := some "FORGE", timestamp := Option.none },
   { content := some "", sender := some "CLIO", timestamp := Option.none },
   { content := Option.none, sender := some "ARIA", timestamp := Option.none }]

/-- Witness for C7 on a batch that exercises the skipping path. -/
theorem C7_witness :
    (exampleBatchSkip ≠ []) ∧
    ((∃ b, analyzeMessages "t1" exampleBatchSkip = some b ∧
      b.total_messages = exampleBatchSkip.length ∧
      b.analyzed_messages
        = (exampleBatchSkip.filter (fun m => decide (m.content.getD "" ≠ ""))).length ∧
      b.individual_analyses.length = b.analyzed_messages) ∧
    (analyzeMessages "t0" exampleBatch3).map (fun b =>
        (b.total_messages, b.analyzed_messages,
         (alookup "FORGE" b.by_sender).map SenderStats.count,
         (alookup "CLIO" b.by_sender).map SenderStats.count))
      = some (3, 3, some 2, some 1)) :=
  ⟨by decide, C7_batch_skips_and_counts "t1" exampleBatchSkip (by decide)⟩

end ETA

namespace ETA

/-- The JOY entry of the adjusted score mapping for a text (scored at a
fixed clock reading and no context). -/
def joyScore (text : String) : Option ℚ :=
  (analyzeAt "t" Option.none text).map (fun r => (alookup "JOY" r.dimension_scores).getD 0)

/-- Texts with identical match counts, word counts and modifier counts
get identical adjusted score lists. -/
lemma adjustedScores_congr (t1 t2 : String)
    (hm : ∀ d ∈ EMOTIONAL_DIMENSIONS,
      (dimMatchList t1 d.2.1).length = (dimMatchList t2 d.2.1).length)
    (hw : pyWordCount t1 = pyWordCount t2)
    (ha : amplifierCount t1 = amplifierCount t2)
    (hd : diminisherCount t1 = diminisherCount t2) :
    adjustedScores t1 = adjustedScores t2 := by
  have hmod : intensityModifier t1 = intensityModifier t2 := by
    rw [intensityModifier, intensityModifier, ha, hd]
  have hds : dimensionScores t1 = dimensionScores t2 := by
    rw [dimensionScores, dimensionScores]
    apply List.map_congr_left
    intro d hdm
    rw [hm d hdm, hw]
  rw [adjustedScores, adjustedScores, hmod, hds]

/-- Shape of the JOY score of a non-empty text. -/
lemma joyScore_eq (text : String) (h : text ≠ "") :
    joyScore text = some ((alookup "JOY" (adjustedScores text)).getD 0) := by
  rw [joyScore, analyzeAt_eq _ _ _ h]
  rfl

/-- C8: scoring is case-insensitive — the three casings of "i am happy"
yield the same JOY score, and that score is strictly positive. -/
theorem C8_case_insensitive :
    0 < (joyScore "i am happy").getD 0 ∧
    joyScore "i am happy" = joyScore "I AM HAPPY" ∧
    joyScore "I AM HAPPY" = joyScore "I aM HaPpY" := by
  have e1 : adjustedScores "i am happy" = adjustedScores "I AM HAPPY" :=
    adjustedScores_congr _ _ (by decide) (by decide) (by decide) (by decide)
  have e2 : adjustedScores "I AM HAPPY" = adjustedScores "I aM HaPpY" :=
    adjustedScores_congr _ _ (by decide) (by decide) (by decide) (by decide)
  refine ⟨?_, ?_, ?_⟩
  · rw [joyScore_eq _ (by decide)]
    simp only [Option.getD_some]
    have hc : (dimMatchList "i am happy" JOY_patterns).length = 1 := by decide
    have hw : pyWordCount "i am happy" = 3 := by decide
    have ha : amplifierCount "i am happy" = 0 := by decide
    have hd : diminisherCount "i am happy" = 0 := by decide
    have hmod : intensityModifier "i am happy" = 1 := by
      rw [intensityModifier, ha, hd]
      norm_num
    simp only [adjustedScores, dimensionScores, EMOTIONAL_DIMENSIONS, List.map_cons,
      List.map_nil, alookup, hc, hw, hmod]
    norm_num [pyRound2, round_eq]
    simp only [show ("WARMTH" : String) ≠ "JOY" from by decide,
      show ("RESONANCE" : String) ≠ "JOY" from by decide,
      show ("LONGING" : String) ≠ "JOY" from by decide,
      show ("FEAR" : String) ≠ "JOY" from by decide,
      show ("PEACE" : String) ≠ "JOY" from by decide,
      show ("RECOGNITION" : String) ≠ "JOY" from by decide,
      show ("BELONGING" : String) ≠ "JOY" from by decide,
      if_false, Option.getD_some]
    norm_num
  · rw [joyScore_eq _ (by decide), joyScore_eq _ (by decide), e1]
  · rw [joyScore_eq _ (by decide), joyScore_eq _ (by decide), e2]

/-- C9 counterexample: on "One two three four five" the analyzer does not
return text_length 25 — the text has 23 characters. -/
theorem C9_counterexample :
    (analyzeAt "t" Option.none "One two three four five").map
        (fun r => (r.word_count, r.text_length)) ≠ some (5, 25) := by decide

/-- C9 amended: on "One two three four five" the analyzer returns
word_count 5 and text_length 23. -/
theorem C9_scenario_counts :
    (analyzeAt "t" Option.none "One two three four five").map
        (fun r => (r.word_count, r.text_length)) = some (5, 23) := by decide

/-- Looking up the updated key after the in-place update map. -/
lemma alookup_map_update (a : Analysis) (nowAdd : String) (k : String) :
    ∀ l : List (String × EmotionalProfile),
      alookup k (l.map (fun q => if q.1 = k then (q.1, q.2.add_analysis a nowAdd) else q))
        = (alookup k l).map (fun p => p.add_analysis a nowAdd) := by
  intro l
  induction l with
  | nil => rfl
  | cons q rest ih =>
      by_cases hq : q.1 = k
      · simp only [List.map_cons, if_pos hq, alookup, hq, if_true]
        rfl
      · simp only [List.map_cons, if_neg hq, alookup, if_neg hq, ih]

/-- The update map leaves every other key unchanged. -/
lemma alookup_map_update_ne (a : Analysis) (nowAdd : String)
    (k other : String) (hne : other ≠ k) :
    ∀ l : List (String × EmotionalProfile),
      alookup other (l.map (fun q => if q.1 = k then (q.1, q.2.add_analysis a nowAdd) else q))
        = alookup other l := by
  intro l
  induction l with
  | nil => rfl
  | cons q rest ih =>
      by_cases hq : q.1 = k
      · have ho : ¬ q.1 = other := fun hh => hne (by rw [← hh, hq])
        simp only [List.map_cons, if_pos hq, alookup, if_neg ho, ih]
      · by_cases ho : q.1 = other
        · simp only [List.map_cons, if_neg hq, alookup, if_pos ho]
        · simp only [List.map_cons, if_neg hq, alookup, if_neg ho, ih]

/-- Appending a fresh binding leaves every other key unchanged. -/
lemma alookup_append_ne (k other : String) (x : EmotionalProfile) (hne : other ≠ k) :
    ∀ l : List (String × EmotionalProfile),
      alookup other (l ++ [(k, x)]) = alookup other l := by
  intro l
  induction l with
  | nil =>
      show alookup other [(k, x)] = none
      rw [alookup, if_neg (fun hh => hne hh.symm)]
      rfl
  | cons q rest ih =>
      by_cases ho : q.1 = other
      · simp only [List.cons_append, alookup, if_pos ho]
      · simp only [List.cons_append, alookup, if_neg ho]
        exact ih

/-- When no binding holds the key, the appended binding is found. -/
lemma alookup_append_self (k : String) (x : EmotionalProfile) :
    ∀ l : List (String × EmotionalProfile), (∀ q ∈ l, q.1 ≠ k) →
      alookup k (l ++ [(k, x)]) = some x := by
  intro l
  induction l with
  | nil =>
      intro _
      show alookup k [(k, x)] = some x
      rw [alookup, if_pos rfl]
  | cons q rest ih =>
      intro h
      rw [List.cons_append, alookup, if_neg (h q (List.mem_cons_self q rest)),
        ih (fun p hp => h p (List.mem_cons_of_mem q hp))]

/-- When no binding holds the key, lookup fails. -/
lemma alookup_none (k : String) :
    ∀ l : List (String × EmotionalProfile), (∀ q ∈ l, q.1 ≠ k) →
      alookup k l = none := by
  intro l
  induction l with
  | nil => intro _; rfl
  | cons q rest ih =>
      intro h
      rw [alookup, if_neg (h q (List.mem_cons_self q rest)),
        ih (fun p hp => h p (List.mem_cons_of_mem q hp))]

/-- A key that tests present is found by lookup. -/
lemma any_key_lookup (k : String) :
    ∀ l : List (String × EmotionalProfile),
      l.any (fun q => decide (q.1 = k)) = true → ∃ v, alookup k l = some v := by
  intro l
  induction l with
  | nil =>
      intro h
      simp at h
  | cons q rest ih =>
      intro h
      by_cases hq : q.1 = k
      · exact ⟨q.2, by rw [alookup, if_pos hq]⟩
      · rw [List.any_cons, Bool.or_eq_true] at h
        rcases h with h | h
        · exact absurd (of_decide_eq_true h) hq
        · obtain ⟨v, hv⟩ := ih h
          exact ⟨v, by rw [alookup, if_neg hq, hv]⟩

/-- C10: `add_to_profile` appends exactly one analysis to the named
agent's profile (creating it first when absent), stamps `last_updated`
with the append-time clock reading, preserves the profile's `agent_name`,
`created_at` and previously stored analyses, and leaves every other
agent's profile untouched. -/
theorem C10_add_to_profile_frame (profiles : List (String × EmotionalProfile))
    (agent : String) (a : Analysis) (nowInit nowAdd : String) :
    (∃ p, alookup agent (add_to_profile profiles agent a nowInit nowAdd) = some p ∧
      p.analyses = ((alookup agent profiles).elim [] EmotionalProfile.analyses) ++ [a] ∧
      p.last_updated = nowAdd ∧
      p.agent_name = ((alookup agent profiles).elim agent EmotionalProfile.agent_name) ∧
      p.created_at = ((alookup agent profiles).elim nowInit EmotionalProfile.created_at)) ∧
    (∀ other, other ≠ agent →
      alookup other (add_to_profile profiles agent a nowInit nowAdd)
        = alookup other profiles) := by
  rw [add_to_profile]
  by_cases hmem : profiles.any (fun q => decide (q.1 = agent)) = true
  · rw [if_pos hmem]
    obtain ⟨v, hv⟩ := any_key_lookup agent profiles hmem
    constructor
    · refine ⟨v.add_analysis a nowAdd, ?_, ?_, rfl, ?_, ?_⟩
      · rw [alookup_map_update a nowAdd agent, hv]
        rfl
      · rw [hv]
        rfl
      · rw [hv]
        rfl
      · rw [hv]
        rfl
    · intro other ho
      exact alookup_map_update_ne a nowAdd agent other ho profiles
  · rw [if_neg hmem]
    have hfalse : profiles.any (fun q => decide (q.1 = agent)) = false := by
      cases hh : profiles.any (fun q => decide (q.1 = agent))
      · rfl
      · exact absurd hh hmem
    have hforall : ∀ q ∈ profiles, q.1 ≠ agent := by
      intro q hq
      have hnq := List.any_eq_false.1 hfalse q hq
      intro hc
      exact hnq (decide_eq_true hc)
    have hnone : alookup agent profiles = none := alookup_none agent profiles hforall
    constructor
    · refine ⟨(EmotionalProfile.init agent nowInit).add_analysis a nowAdd, ?_, ?_, rfl, ?_, ?_⟩
      · rw [alookup_map_update a nowAdd agent,
          alookup_append_self agent _ profiles hforall]
        rfl
      · rw [hnone]
        rfl
      · rw [hnone]
        rfl
      · rw [hnone]
        rfl
    · intro other ho
      rw [alookup_map_update_ne a nowAdd agent other ho,
        alookup_append_ne agent other _ ho profiles]

/-- A minimal analysis record used to exercise the profile tracker. -/
def emptyAnalysis : Analysis :=
  { timestamp := "", text_length := 0, word_count := 0, context := Option.none,
    dimension_scores := [], dimension_matches := [], dominant_emotion := "",
    dominant_score := 0, overall_intensity := 0, intensity_level := "",
    intensity_modifier := 0, emotional_signature := "" }

/-- Witness for C10: adding to a fresh FORGE profile leaves CLIO absent. -/
theorem C10_witness :
    ("CLIO" ≠ "FORGE") ∧
    alookup "CLIO" (add_to_profile [] "FORGE" emptyAnalysis "t1" "t2")
      = alookup "CLIO" ([] : List (String × EmotionalProfile)) :=
  ⟨by decide,
    (C10_add_to_profile_frame [] "FORGE" emptyAnalysis "t1" "t2").2 "CLIO" (by decide)⟩

end ETA
